import Mathlib

/-!
Shallow embedding of `src/src.py` (K3fk0/text-intersection-3D-print), a
Blender add-on that builds a 3D-printable mesh from the intersection of two
extruded text strings and exports it to STL.

The script is a linear orchestration of `bpy` host-API calls.  We embed it
as trace-producing functions: every host invocation becomes a constructor of
`HostOp`, and each Python function becomes a Lean function returning the
list of host operations it performs, in order.  Numeric values (Blender
floats) are modelled as rationals; values the script reads back from the
host (object dimensions) are passed in as parameters.  Python string
indexing, which can raise `IndexError`, is modelled with `Except`.
-/

namespace TextIntersection

/-- Result value of a Blender operator execute method (the script returns
the singleton result sets CANCELLED or FINISHED). -/
inductive OpResult where
  | CANCELLED
  | FINISHED
deriving DecidableEq

/-- Operation mode of a Blender boolean modifier, as set by the script. -/
inductive BoolOperation where
  | INTERSECT
  | UNION
deriving DecidableEq

/-- Blender interaction mode used by `bpy.ops.object.mode_set`. -/
inductive InteractionMode where
  | OBJECT
  | EDIT
deriving DecidableEq

/-- Target of a `view_layer.objects.active = ...` assignment: either an
object looked up by name in `bpy.data.objects`, or the Python reference to
the intersection mesh held by the caller (`intersect_mesh`). -/
inductive ObjTarget where
  | named (name : String)
  | contextMesh
deriving DecidableEq

/-- One host-API invocation performed by the script, with the parameters
the script computes.  Constant parameters of the `bpy` calls that the
script never varies (e.g. the WORLD alignment) are not recorded. -/
inductive HostOp where
  | selectAllObjects
  | deleteObjects
  | textAdd (centreY zLoc rotXdeg rotZdeg : ℚ)
  | setTextBody (txt : String)
  | renameObject (name : String)
  | renameData (name : String)
  | alignTextCentre
  | setFont (fp : String)
  | setTextSize (s : ℚ)
  | setExtrude (e : ℚ)
  | convertToMesh
  | setActive (t : ObjTarget)
  | newBooleanModifier (name : String) (operation : BoolOperation)
      (useSelf : Bool) (target : String)
  | applyModifier (name : String)
  | setAutoSmooth
  | cubeAdd (centreY zLoc scaleX scaleY scaleZ : ℚ)
  | meshDeselectAll
  | modeSet (m : InteractionMode)
  | selectPolygon (idx : Nat)
  | resize (x y z : ℚ)
  | newDecimateModifier (name : String) (dissolve : Bool)
  | setScale (x y z : ℚ)
  | joinAll
  | setLocation (x y z : ℚ)
  | exportSTL (filepath : String) (ascii useMeshModifiers : Bool)
      (globalScale : ℚ)
deriving DecidableEq

/-- Python exception propagating out of the embedded code.  The only
failure the embedding itself produces is `IndexError` from string
subscripting in `mesh_by_letters`. -/
inductive PyErr where
  | indexError
deriving DecidableEq

/-- Python `str.upper()`, modelled character-wise. -/
def py_upper (s : String) : String :=
  ⟨s.data.map Char.toUpper⟩

/-- Python `s[i]` on a string: a one-character string, or `IndexError`
when the index is out of range. -/
def py_charAt (s : String) (i : Nat) : Except PyErr String :=
  match s.data.get? i with
  | some c => .ok (String.singleton c)
  | none => .error .indexError

/-- Embeds `clear_workspace` (src.py lines 19-25): select all objects and
delete them. -/
def clear_workspace : List HostOp :=
  [.selectAllObjects, .deleteObjects]

/-- Embeds `create_text_object` (src.py lines 28-74).  The text object is
added at `(0, centre_position, platform_height - 0.02)` with x-rotation
`radians(90)` (recorded in degrees), renamed, centred, given the font when
one is present, sized, extruded, and converted to a mesh. -/
def create_text_object (txt : String) (extrude_size : ℚ) (name : String)
    (rotation_z_deg centre_position platform_height : ℚ)
    (font : Option String) : List HostOp :=
  [.textAdd centre_position (platform_height - 1/50) 90 rotation_z_deg,
   .setTextBody txt,
   .renameObject name,
   .renameData (name ++ " data"),
   .alignTextCentre]
  ++ (match font with
      | some f => [.setFont f]
      | none => [])
  ++ [.setTextSize 3,
      .setExtrude extrude_size,
      .convertToMesh]

/-- Embeds `create_intersection_object` (src.py lines 77-115): a boolean
INTERSECT modifier on the first text object targeting the second, applied;
the second text object deleted; the result renamed "final mesh". -/
def create_intersection_object : List HostOp :=
  [.setActive (.named "first text"),
   .newBooleanModifier "Intersection on first object" .INTERSECT true
     "second text",
   .applyModifier "Intersection on first object",
   .setActive (.named "second text"),
   .deleteObjects,
   .setActive (.named "first text"),
   .renameObject "final mesh",
   .renameData "final mesh data",
   .setAutoSmooth]

/-- Embeds `add_platform` (src.py lines 118-185): a cube is added (at
`z = 1.98 + platform_height` for the top platform, `z = 0` otherwise),
shaped, then joined to the intersection mesh by a boolean UNION modifier,
and the cube object deleted. -/
def add_platform (centre_position platform_height width depth : ℚ)
    (is_top_platform : Bool) : List HostOp :=
  [.cubeAdd centre_position
     (if is_top_platform then 99/50 + platform_height else 0)
     (depth / 2 + 1/5) (width / 2 + 1/5) platform_height,
   .renameObject "platform",
   .renameData "platform data",
   .meshDeselectAll,
   .modeSet .OBJECT,
   .selectPolygon (if is_top_platform then 5 else 4),
   .modeSet .EDIT,
   .resize (1 + platform_height * 4 / depth)
     (1 + platform_height * 4 / width) 1,
   .modeSet .OBJECT,
   .setActive .contextMesh,
   .newBooleanModifier "Union of intersect mesh and platform" .UNION true
     "platform",
   .applyModifier "Union of intersect mesh and platform",
   .setActive (.named "platform"),
   .deleteObjects,
   .setActive .contextMesh]

/-- Scale factor computed by `finalize_mesh` (src.py lines 209-211):
`min(max_size/dim.x, max_size/dim.y, max_size/dim.z)`. -/
def finalize_scale (max_size dx dy dz : ℚ) : ℚ :=
  min (max_size / dx) (min (max_size / dy) (max_size / dz))

/-- Embeds `finalize_mesh` (src.py lines 188-212): select everything, add
and apply a DECIMATE (DISSOLVE) modifier, then assign the same scale
factor on all three axes.  The dimensions of "final mesh" are host state,
passed in as `dx`, `dy`, `dz`. -/
def finalize_mesh (max_size dx dy dz : ℚ) : List HostOp :=
  [.selectAllObjects,
   .newDecimateModifier "Decimate modifier" true,
   .applyModifier "Decimate modifier",
   .setScale (finalize_scale max_size dx dy dz)
     (finalize_scale max_size dx dy dz)
     (finalize_scale max_size dx dy dz)]

/-- Embeds `export_to_stl` (src.py lines 215-227): select everything and
invoke the host STL exporter with `ascii=False`, `use_mesh_modifiers=True`,
`global_scale=1.0`. -/
def export_to_stl (file : String) : List HostOp :=
  [.selectAllObjects,
   .exportSTL file false true 1]

/-- Embeds `single_mesh` (src.py lines 230-254): two extruded text objects,
their intersection, an unconditional bottom platform, and a top platform
exactly when `with_platform` is set.  The width and depth the script reads
from `intersect_mesh.dimensions` are host state, passed in as parameters. -/
def single_mesh (fst snd : String) (with_platform : Bool)
    (platform_height : ℚ) (font : Option String)
    (width depth centre_position : ℚ) : List HostOp :=
  create_text_object fst ((snd.length : ℚ) * 2) "first text" 0
    centre_position platform_height font
  ++ create_text_object snd ((fst.length : ℚ) * 2) "second text" 90
    centre_position platform_height font
  ++ create_intersection_object
  ++ add_platform centre_position platform_height width depth false
  ++ (if with_platform then
        add_platform centre_position platform_height width depth true
      else [])

/-- Centre position of the `i`-th letter mesh (src.py line 271):
`i * 2 - fst_length // 2 - 2`, computed in Python integer arithmetic
(`//` on the non-negative `fst_length` is truncating division). -/
def letter_centre (fst_length i : Nat) : ℚ :=
  ((i : ℤ) * 2 - ((fst_length / 2 : ℕ) : ℤ) - 2 : ℤ)

/-- Embeds `mesh_by_letters` (src.py lines 257-271): for each index `i` in
`range(len(fst_word))`, one `single_mesh` on the letter pair
`(fst_word[i], snd_word[i])` centred at `i*2 - len(fst_word)//2 - 2`.
String subscripting may raise `IndexError`.  `dims i` supplies the host
dimensions read inside the `i`-th `single_mesh`. -/
def mesh_by_letters (fst_word snd_word : String) (with_platform : Bool)
    (platform_height : ℚ) (font : Option String)
    (dims : Nat → ℚ × ℚ) : Except PyErr (List HostOp) := do
  let traces ← (List.range fst_word.length).mapM (fun i => do
    let a ← py_charAt fst_word i
    let b ← py_charAt snd_word i
    pure (single_mesh a b with_platform platform_height font
      (dims i).1 (dims i).2 (letter_centre fst_word.length i)))
  pure traces.flatten

/-- Trailing host operations of `main` (src.py lines 283-286): join all
objects to one mesh and move it to the origin. -/
def join_and_centre : List HostOp :=
  [.selectAllObjects, .joinAll, .setLocation 0 0 0]

/-- Embeds `main` (src.py lines 274-286): clear the workspace, build either
the per-letter meshes or a single mesh, then join all objects and move the
result to the origin. -/
def main (fst snd : String) (by_letters with_top_platform : Bool)
    (platform_height : ℚ) (font : Option String)
    (dims : Nat → ℚ × ℚ) : Except PyErr (List HostOp) := do
  let body ←
    if by_letters then
      mesh_by_letters fst snd with_top_platform platform_height font dims
    else
      pure (single_mesh fst snd with_top_platform platform_height font
        (dims 0).1 (dims 0).2 0)
  pure (clear_workspace ++ body ++ join_and_centre)

/-- Properties of the `Model_mesh` operator (src.py lines 297-304). -/
structure ModelMeshProps where
  fst : String
  snd : String
  font_path : String
  by_letters : Bool
  platform_height : ℚ
  with_top_platform : Bool

/-- Outcome of `bpy.data.fonts.load(filepath=...)` (src.py line 320): the
font loads, or the call raises `RuntimeError` (the only failure mode the
script anticipates; it is caught at line 321). -/
inductive FontLoadResult where
  | loaded (f : String)
  | raisedRuntimeError
deriving DecidableEq

/-- One `self.report(...)` call: severity level and message. -/
abbrev Report := String × String

/-- Outcome of an operator execute method: the reports issued, the result
set returned, and the trace of host operations performed. -/
structure ExecOutcome where
  reports : List Report
  result : OpResult
  trace : List HostOp
deriving DecidableEq

/-- Warning message of the word-length check (src.py lines 315-316; the two
adjacent Python string literals concatenate). -/
def lenWarnMsg : String :=
  "Words have to have the same length in order to model them separately by letters."

/-- Warning message of the font-load fallback (src.py line 322). -/
def fontWarnMsg : String :=
  "Could not load wanted font. Chose default instead."

/-- Reports and font value produced by the `try/except RuntimeError` around
`bpy.data.fonts.load` (src.py lines 319-323): on success the loaded font,
on `RuntimeError` a warning and the default font `None`. -/
def fontStep (r : FontLoadResult) : List Report × Option String :=
  match r with
  | .loaded f => ([], some f)
  | .raisedRuntimeError => ([(("WARNING" : String), fontWarnMsg)], none)

/-- Embeds `Model_mesh.execute` (src.py lines 313-327): the word-length
check, the font-load fallback, then `main` on the uppercased words with
`platform_height / 10`. -/
def Model_mesh_execute (p : ModelMeshProps) (fontRes : FontLoadResult)
    (dims : Nat → ℚ × ℚ) : Except PyErr ExecOutcome :=
  if p.by_letters && !(p.fst.length == p.snd.length) then
    .ok ⟨[(("WARNING" : String), lenWarnMsg)], .CANCELLED, []⟩
  else
    match main (py_upper p.fst) (py_upper p.snd) p.by_letters
        p.with_top_platform (p.platform_height / 10) (fontStep fontRes).2
        dims with
    | .error e => .error e
    | .ok tr => .ok ⟨(fontStep fontRes).1, .FINISHED, tr⟩

/-- Properties of the `Export_model` operator (src.py lines 338-341). -/
structure ExportProps where
  filename : String
  max_size : ℤ

/-- Embeds `Export_model.execute` (src.py lines 350-357): the empty-path
check, then `finalize_mesh(max_size / 100)` and
`export_to_stl(filename + "\\export.stl")`.  The dimensions of the final
mesh are host state, passed in as `dx`, `dy`, `dz`. -/
def Export_model_execute (p : ExportProps) (dx dy dz : ℚ) : ExecOutcome :=
  if p.filename.length == 0 then
    ⟨[(("WARNING" : String), "Invalid directory path.")], .CANCELLED, []⟩
  else
    ⟨[], .FINISHED,
     finalize_mesh ((p.max_size : ℚ) / 100) dx dy dz
       ++ export_to_stl (p.filename ++ "\\export.stl")⟩

/-! Proof infrastructure. -/

/-- Total variant of Python string indexing, defined for theorem statements;
`char_at_py_charAt` ties it to the fallible `py_charAt` on in-range
indices. -/
def char_at (s : String) (i : Nat) : Char :=
  (s.data.get? i).getD ' '

/-- Classification of the pipeline-relevant host operations, in the order
the specification describes the pipeline: text-to-mesh conversion (1),
applying the boolean INTERSECT modifier (2), applying the boolean UNION
modifier with the platform cube (3), applying the DECIMATE modifier (4),
setting the scale (5), the STL export (6). -/
def opPhase : HostOp → Option Nat
  | .convertToMesh => some 1
  | .applyModifier n =>
      if n = "Intersection on first object" then some 2
      else if n = "Union of intersect mesh and platform" then some 3
      else if n = "Decimate modifier" then some 4
      else none
  | .setScale _ _ _ => some 5
  | .exportSTL _ _ _ _ => some 6
  | _ => none

/-- Pipeline phases of a host-operation trace. -/
def phases (t : List HostOp) : List Nat :=
  t.filterMap opPhase

/-- Pipeline phases of one `single_mesh`: two conversions, an INTERSECT
application, a UNION application for the bottom platform, and a second
UNION application when the top platform is requested. -/
def meshPhases (with_platform : Bool) : List Nat :=
  [1, 1, 2, 3] ++ (if with_platform then [3] else [])

/-- Trace of the `i`-th iteration of the `mesh_by_letters` loop: one
`single_mesh` on the `i`-th letter pair. -/
def letter_mesh (fw sw : String) (wp : Bool) (ph : ℚ) (font : Option String)
    (dims : Nat → ℚ × ℚ) (i : Nat) : List HostOp :=
  single_mesh (String.singleton (char_at fw i))
    (String.singleton (char_at sw i)) wp ph font
    (dims i).1 (dims i).2 (letter_centre fw.length i)

/-- Recognizes the application of the boolean UNION modifier that joins a
platform to the intersection mesh. -/
def isUnionApply : HostOp → Bool
  | .applyModifier n => n == "Union of intersect mesh and platform"
  | _ => false

/-- Recognizes the creation of a platform cube. -/
def isCubeAdd : HostOp → Bool
  | .cubeAdd _ _ _ _ _ => true
  | _ => false

/-- Constant host-dimension oracle used in concrete instantiations. -/
def dims0 : Nat → ℚ × ℚ := fun _ => (1, 1)

/-- Concrete `Model_mesh` operator properties used in concrete
instantiations: whole-word mode, unit platform height, no top platform. -/
def demoModelProps : ModelMeshProps :=
  ⟨"ab", "cd", "font.ttf", false, 1, false⟩

/-- Concrete `Export_model` operator properties used in concrete
instantiations. -/
def demoExportProps : ExportProps := ⟨"C:", 10⟩

/-- Outcome of `Model_mesh.execute` on `demoModelProps` with a loaded
font. -/
def demoOutcome : ExecOutcome :=
  ⟨[], .FINISHED,
   clear_workspace
     ++ single_mesh (py_upper "ab") (py_upper "cd") false (1 / 10)
       (some "f") (dims0 0).1 (dims0 0).2 0
     ++ join_and_centre⟩

/-- Outcome of `Model_mesh.execute` on `demoModelProps` when the font load
raises `RuntimeError`: the run still finishes, with the fallback warning
and the default font. -/
def demoFallbackOutcome : ExecOutcome :=
  ⟨[(("WARNING" : String), fontWarnMsg)], .FINISHED,
   clear_workspace
     ++ single_mesh (py_upper "ab") (py_upper "cd") false (1 / 10)
       none (dims0 0).1 (dims0 0).2 0
     ++ join_and_centre⟩

theorem phases_append (s t : List HostOp) :
    phases (s ++ t) = phases s ++ phases t :=
  List.filterMap_append s t opPhase

theorem phases_create_text_object (txt : String) (e : ℚ) (name : String)
    (rz c ph : ℚ) (font : Option String) :
    phases (create_text_object txt e name rz c ph font) = [1] := by
  cases font <;> simp [create_text_object, phases, opPhase]

theorem phases_create_intersection_object :
    phases create_intersection_object = [2] := by
  simp [create_intersection_object, phases, opPhase]

theorem phases_add_platform (c ph w d : ℚ) (top : Bool) :
    phases (add_platform c ph w d top) = [3] := by
  simp [add_platform, phases, opPhase]

theorem phases_nil : phases [] = [] := rfl

theorem phases_single_mesh (fst snd : String) (wp : Bool) (ph : ℚ)
    (font : Option String) (w d c : ℚ) :
    phases (single_mesh fst snd wp ph font w d c) = meshPhases wp := by
  cases wp <;>
    simp only [single_mesh, meshPhases, Bool.false_eq_true, if_false, if_true,
      phases_append, phases_create_text_object,
      phases_create_intersection_object, phases_add_platform, phases_nil] <;>
    rfl

theorem phases_clear_workspace : phases clear_workspace = [] := by
  simp [clear_workspace, phases, opPhase]

theorem phases_finalize_mesh (ms dx dy dz : ℚ) :
    phases (finalize_mesh ms dx dy dz) = [4, 5] := by
  simp [finalize_mesh, phases, opPhase]

theorem phases_export_to_stl (f : String) :
    phases (export_to_stl f) = [6] := by
  simp [export_to_stl, phases, opPhase]

theorem phases_join_and_centre : phases join_and_centre = [] := rfl

/-- A mapM over `Except` succeeds, with the pointwise values, when every
element succeeds. -/
theorem mapM_ok_of_ok {ε α β : Type} (f : α → Except ε β) (g : α → β)
    (l : List α) (h : ∀ a ∈ l, f a = .ok (g a)) :
    l.mapM f = .ok (l.map g) := by
  induction l with
  | nil => rfl
  | cons a l ih =>
    rw [List.mapM_cons, h a (List.mem_cons_self a l),
      ih (fun x hx => h x (List.mem_cons_of_mem a hx))]
    rfl

/-- Every element of the result of a successful mapM over `Except` is the
successful value of `f` at some element of the input list. -/
theorem mapM_ok_mem {ε α β : Type} (f : α → Except ε β) :
    ∀ (l : List α) (bs : List β), l.mapM f = .ok bs →
      ∀ b ∈ bs, ∃ a ∈ l, f a = .ok b := by
  intro l
  induction l with
  | nil =>
    intro bs h b hb
    rw [List.mapM_nil] at h
    cases h
    simp at hb
  | cons a l ih =>
    intro bs h b hb
    rw [List.mapM_cons] at h
    cases hfa : f a with
    | error e => rw [hfa] at h; simp [Bind.bind, Except.bind] at h
    | ok b0 =>
      rw [hfa] at h
      cases hml : l.mapM f with
      | error e => rw [hml] at h; simp [Bind.bind, Except.bind] at h
      | ok bs0 =>
        rw [hml] at h
        simp [Bind.bind, Except.bind, pure, Except.pure] at h
        subst h
        rcases List.mem_cons.mp hb with hb | hb
        · exact ⟨a, List.mem_cons_self a l, hb ▸ hfa⟩
        · obtain ⟨x, hx, hfx⟩ := ih bs0 hml b hb
          exact ⟨x, List.mem_cons_of_mem a hx, hfx⟩

/-- On an in-range index, Python string subscripting succeeds and returns
the one-character string at `char_at`. -/
theorem char_at_py_charAt {s : String} {i : Nat} (h : i < s.length) :
    py_charAt s i = .ok (String.singleton (char_at s i)) := by
  cases hq : s.data.get? i with
  | none =>
    have := List.get?_eq_none.mp hq
    have h' : i < s.data.length := h
    omega
  | some c => simp only [py_charAt, char_at, hq, Option.getD_some]

/-- When the two words have the same length, `mesh_by_letters` succeeds and
its trace is the concatenation of one `single_mesh` trace per letter
index. -/
theorem mesh_by_letters_ok (fw sw : String) (wp : Bool) (ph : ℚ)
    (font : Option String) (dims : Nat → ℚ × ℚ)
    (h : fw.length = sw.length) :
    mesh_by_letters fw sw wp ph font dims =
      .ok (((List.range fw.length).map
        (letter_mesh fw sw wp ph font dims)).flatten) := by
  unfold mesh_by_letters
  rw [mapM_ok_of_ok _ (letter_mesh fw sw wp ph font dims) _ (fun i hi => by
    have hi' : i < fw.length := List.mem_range.mp hi
    rw [char_at_py_charAt hi', char_at_py_charAt (h ▸ hi')]
    rfl)]
  rfl

theorem phases_flatten (L : List (List HostOp)) :
    phases L.flatten = (L.map phases).flatten :=
  List.filterMap_flatten opPhase L

/-- With `by_letters` false, `main` always succeeds: one `single_mesh` on
the whole words, between the workspace clearing and the final join. -/
theorem main_false (fst snd : String) (wtp : Bool) (ph : ℚ)
    (font : Option String) (dims : Nat → ℚ × ℚ) :
    main fst snd false wtp ph font dims =
      .ok (clear_workspace
        ++ single_mesh fst snd wtp ph font (dims 0).1 (dims 0).2 0
        ++ join_and_centre) := rfl

/-- With `by_letters` true and words of equal length, `main` succeeds with
one `single_mesh` per letter index. -/
theorem main_true_ok (fst snd : String) (wtp : Bool) (ph : ℚ)
    (font : Option String) (dims : Nat → ℚ × ℚ)
    (h : fst.length = snd.length) :
    main fst snd true wtp ph font dims =
      .ok (clear_workspace
        ++ ((List.range fst.length).map
          (letter_mesh fst snd wtp ph font dims)).flatten
        ++ join_and_centre) := by
  unfold main
  rw [mesh_by_letters_ok fst snd wtp ph font dims h]
  rfl

/-- A successful iteration of the `mesh_by_letters` loop produces a
`single_mesh` trace. -/
theorem letter_step_shape {fw sw : String} {wp : Bool} {ph : ℚ}
    {font : Option String} {dims : Nat → ℚ × ℚ} {i : Nat} {t : List HostOp}
    (h : (do
      let a ← py_charAt fw i
      let b ← py_charAt sw i
      pure (single_mesh a b wp ph font (dims i).1 (dims i).2
        (letter_centre fw.length i))) = Except.ok t) :
    ∃ a b, t = single_mesh a b wp ph font (dims i).1 (dims i).2
      (letter_centre fw.length i) := by
  cases ha : py_charAt fw i with
  | error e => rw [ha] at h; simp [Bind.bind, Except.bind] at h
  | ok a =>
    rw [ha] at h
    cases hb : py_charAt sw i with
    | error e => rw [hb] at h; simp [Bind.bind, Except.bind] at h
    | ok b =>
      rw [hb] at h
      simp [Bind.bind, Except.bind, pure, Except.pure] at h
      exact ⟨a, b, h.symm⟩

/-- Any successful `main` trace consists, phase-wise, of some number of
`single_mesh` blocks (the clear/join/move operations carry no phase). -/
theorem phases_main_ok {f s : String} {bl wtp : Bool} {ph : ℚ}
    {font : Option String} {dims : Nat → ℚ × ℚ} {tr : List HostOp}
    (h : main f s bl wtp ph font dims = .ok tr) :
    ∃ k, phases tr = (List.replicate k (meshPhases wtp)).flatten := by
  cases bl with
  | false =>
    rw [main_false] at h
    cases h
    refine ⟨1, ?_⟩
    simp [phases_append, phases_clear_workspace, phases_single_mesh,
      phases_join_and_centre]
  | true =>
    unfold main at h
    rw [if_pos rfl] at h
    cases hm : mesh_by_letters f s wtp ph font dims with
    | error e => rw [hm] at h; simp [Bind.bind, Except.bind] at h
    | ok body =>
      rw [hm] at h
      simp only [Bind.bind, Except.bind, pure, Except.pure, Except.ok.injEq] at h
      subst h
      unfold mesh_by_letters at hm
      cases hmap : (List.range f.length).mapM (fun i => do
          let a ← py_charAt f i
          let b ← py_charAt s i
          pure (single_mesh a b wtp ph font (dims i).1 (dims i).2
            (letter_centre f.length i))) with
      | error e => rw [hmap] at hm; simp [Bind.bind, Except.bind] at hm
      | ok traces =>
        rw [hmap] at hm
        simp only [Bind.bind, Except.bind, pure, Except.pure,
          Except.ok.injEq] at hm
        subst hm
        refine ⟨traces.length, ?_⟩
        rw [phases_append, phases_append, phases_clear_workspace,
          phases_join_and_centre, phases_flatten]
        have hmap2 : traces.map phases
            = List.replicate traces.length (meshPhases wtp) := by
          rw [List.eq_replicate_iff]
          refine ⟨by simp, ?_⟩
          intro x hx
          obtain ⟨b, hb, hpb⟩ := List.mem_map.mp hx
          obtain ⟨i, _, hFi⟩ := mapM_ok_mem _ _ _ hmap b hb
          obtain ⟨a, c, hshape⟩ := letter_step_shape hFi
          rw [← hpb, hshape, phases_single_mesh]
        rw [hmap2]
        simp

/-- When the length check fires, `Model_mesh.execute` cancels with the
warning and performs no host operation. -/
theorem execute_length_check {p : ModelMeshProps}
    (fontRes : FontLoadResult) (dims : Nat → ℚ × ℚ)
    (hb : p.by_letters = true) (hl : p.fst.length ≠ p.snd.length) :
    Model_mesh_execute p fontRes dims =
      .ok ⟨[(("WARNING" : String), lenWarnMsg)], .CANCELLED, []⟩ := by
  unfold Model_mesh_execute
  rw [if_pos (by simp [hb, hl])]

/-- When the length check passes and `main` succeeds, `Model_mesh.execute`
finishes with the font-step reports and the `main` trace. -/
theorem execute_pass {p : ModelMeshProps} {fontRes : FontLoadResult}
    {dims : Nat → ℚ × ℚ} {tr : List HostOp}
    (hc : (p.by_letters && !(p.fst.length == p.snd.length)) = false)
    (hm : main (py_upper p.fst) (py_upper p.snd) p.by_letters
      p.with_top_platform (p.platform_height / 10) (fontStep fontRes).2 dims
      = .ok tr) :
    Model_mesh_execute p fontRes dims =
      .ok ⟨(fontStep fontRes).1, .FINISHED, tr⟩ := by
  unfold Model_mesh_execute
  rw [if_neg (by simp [hc]), hm]

/-- A finished `Model_mesh.execute` ran `main` on the uppercased words, and
its trace is the `main` trace. -/
theorem execute_finished_main {p : ModelMeshProps}
    {fontRes : FontLoadResult} {dims : Nat → ℚ × ℚ} {o : ExecOutcome}
    (h : Model_mesh_execute p fontRes dims = .ok o)
    (hres : o.result = .FINISHED) :
    main (py_upper p.fst) (py_upper p.snd) p.by_letters p.with_top_platform
      (p.platform_height / 10) (fontStep fontRes).2 dims = .ok o.trace := by
  unfold Model_mesh_execute at h
  cases hc : (p.by_letters && !(p.fst.length == p.snd.length)) with
  | true =>
    rw [hc] at h
    rw [if_pos rfl] at h
    cases h
    simp at hres
  | false =>
    rw [hc] at h
    rw [if_neg (by simp)] at h
    cases hm : main (py_upper p.fst) (py_upper p.snd) p.by_letters
        p.with_top_platform (p.platform_height / 10) (fontStep fontRes).2
        dims with
    | error e => rw [hm] at h; cases h
    | ok tr => rw [hm] at h; cases h; rfl

/-- An empty filename cancels `Export_model.execute` with the warning and
no host operation. -/
theorem export_empty {p : ExportProps} (dx dy dz : ℚ)
    (h : p.filename = "") :
    Export_model_execute p dx dy dz =
      ⟨[(("WARNING" : String), "Invalid directory path.")], .CANCELLED,
        []⟩ := by
  unfold Export_model_execute
  rw [if_pos (by simp [h])]

/-- A non-empty filename makes `Export_model.execute` finish, with the
finalize and export traces. -/
theorem export_nonempty {p : ExportProps} (dx dy dz : ℚ)
    (h : p.filename ≠ "") :
    Export_model_execute p dx dy dz =
      ⟨[], .FINISHED,
       finalize_mesh ((p.max_size : ℚ) / 100) dx dy dz
         ++ export_to_stl (p.filename ++ "\\export.stl")⟩ := by
  unfold Export_model_execute
  rw [if_neg]
  intro hc
  simp only [beq_iff_eq] at hc
  exact h (String.ext (List.length_eq_zero.mp hc))

/-- A finished `Export_model.execute` has the finalize-then-export trace. -/
theorem export_finished_trace {p : ExportProps} {dx dy dz : ℚ}
    (h : (Export_model_execute p dx dy dz).result = .FINISHED) :
    (Export_model_execute p dx dy dz).trace =
      finalize_mesh ((p.max_size : ℚ) / 100) dx dy dz
        ++ export_to_stl (p.filename ++ "\\export.stl") := by
  by_cases he : p.filename = ""
  · rw [export_empty dx dy dz he] at h
    simp at h
  · rw [export_nonempty dx dy dz he]

theorem py_upper_length (s : String) : (py_upper s).length = s.length := by
  unfold py_upper
  show (s.data.map Char.toUpper).length = s.data.length
  exact List.length_map s.data Char.toUpper

/-- `main` succeeds whenever the two words have the same length in
per-letter mode (in whole-word mode it always succeeds). -/
theorem main_ok (f s : String) (bl wtp : Bool) (ph : ℚ)
    (font : Option String) (dims : Nat → ℚ × ℚ)
    (h : bl = true → f.length = s.length) :
    ∃ tr, main f s bl wtp ph font dims = .ok tr := by
  cases bl with
  | false => exact ⟨_, main_false f s wtp ph font dims⟩
  | true => exact ⟨_, main_true_ok f s wtp ph font dims (h rfl)⟩

/-- When the word-length check does not fire, per-letter mode implies the
uppercased words have equal length. -/
theorem check_false_lengths {p : ModelMeshProps}
    (hc : (p.by_letters && !(p.fst.length == p.snd.length)) = false) :
    p.by_letters = true → (py_upper p.fst).length = (py_upper p.snd).length := by
  intro hb
  rw [py_upper_length, py_upper_length]
  rw [hb] at hc
  simpa using hc

/-- The word-length check, stated as a proposition, determines the boolean
guard of `Model_mesh.execute`. -/
theorem not_check_to_false {p : ModelMeshProps}
    (h : ¬(p.by_letters = true ∧ p.fst.length ≠ p.snd.length)) :
    (p.by_letters && !(p.fst.length == p.snd.length)) = false := by
  cases hbl : p.by_letters with
  | false => simp
  | true =>
    have hlen : p.fst.length = p.snd.length := by
      by_contra hne
      exact h ⟨hbl, hne⟩
    simp [hlen]

/-- C10: for every call to `finalize_mesh(max_size)` on an object whose
three dimensions are all positive, the assigned scale is the same factor
on all three axes, equal to `min(max_size/dim.x, max_size/dim.y,
max_size/dim.z)`; each scaled dimension is at most `max_size` and the
largest equals `max_size`. -/
theorem C10_uniform_scale (ms dx dy dz : ℚ)
    (hx : 0 < dx) (hy : 0 < dy) (hz : 0 < dz) :
    (finalize_mesh ms dx dy dz).getLast? =
      some (.setScale (finalize_scale ms dx dy dz)
        (finalize_scale ms dx dy dz) (finalize_scale ms dx dy dz))
    ∧ finalize_scale ms dx dy dz
        = min (ms / dx) (min (ms / dy) (ms / dz))
    ∧ finalize_scale ms dx dy dz * dx ≤ ms
    ∧ finalize_scale ms dx dy dz * dy ≤ ms
    ∧ finalize_scale ms dx dy dz * dz ≤ ms
    ∧ max (finalize_scale ms dx dy dz * dx)
        (max (finalize_scale ms dx dy dz * dy)
          (finalize_scale ms dx dy dz * dz)) = ms := by
  have hsx : finalize_scale ms dx dy dz * dx ≤ ms :=
    (le_div_iff₀ hx).mp (min_le_left _ _)
  have hsy : finalize_scale ms dx dy dz * dy ≤ ms :=
    (le_div_iff₀ hy).mp (le_trans (min_le_right _ _) (min_le_left _ _))
  have hsz : finalize_scale ms dx dy dz * dz ≤ ms :=
    (le_div_iff₀ hz).mp (le_trans (min_le_right _ _) (min_le_right _ _))
  have hatt : finalize_scale ms dx dy dz * dx = ms
      ∨ finalize_scale ms dx dy dz * dy = ms
      ∨ finalize_scale ms dx dy dz * dz = ms := by
    rcases min_choice (ms / dx) (min (ms / dy) (ms / dz)) with h1 | h1
    · left
      rw [finalize_scale, h1, div_mul_cancel₀ ms hx.ne']
    · rcases min_choice (ms / dy) (ms / dz) with h2 | h2
      · right; left
        rw [finalize_scale, h1, h2, div_mul_cancel₀ ms hy.ne']
      · right; right
        rw [finalize_scale, h1, h2, div_mul_cancel₀ ms hz.ne']
  refine ⟨rfl, rfl, hsx, hsy, hsz, le_antisymm (max_le hsx (max_le hsy hsz)) ?_⟩
  rcases hatt with h | h | h
  · exact le_trans (le_of_eq h.symm) (le_max_left _ _)
  · exact le_trans (le_of_eq h.symm)
      (le_trans (le_max_left _ _) (le_max_right _ _))
  · exact le_trans (le_of_eq h.symm)
      (le_trans (le_max_right _ _) (le_max_right _ _))

/-- Witness for C10 at `max_size = 1/10` and dimensions `(2, 3, 4)`. -/
theorem C10_uniform_scale_witness :
    (0 : ℚ) < 2 ∧ (0 : ℚ) < 3 ∧ (0 : ℚ) < 4
    ∧ (finalize_scale (1/10) 2 3 4 * 2 ≤ (1/10 : ℚ)
       ∧ max (finalize_scale (1/10) 2 3 4 * 2)
           (max (finalize_scale (1/10) 2 3 4 * 3)
             (finalize_scale (1/10) 2 3 4 * 4)) = (1/10 : ℚ)) :=
  ⟨by norm_num, by norm_num, by norm_num,
   ((C10_uniform_scale (1/10) 2 3 4 (by norm_num) (by norm_num)
      (by norm_num)).2.2.1),
   ((C10_uniform_scale (1/10) 2 3 4 (by norm_num) (by norm_num)
      (by norm_num)).2.2.2.2.2)⟩

/-- C3: an empty filename makes `Export_model.execute` report "Invalid
directory path." and return CANCELLED without performing any host
operation (in particular neither `finalize_mesh` nor `export_to_stl` runs);
a non-empty filename makes it run `finalize_mesh` then `export_to_stl` and
return FINISHED. -/
theorem C3_export_path_check (p : ExportProps) (dx dy dz : ℚ) :
    (p.filename = "" →
      Export_model_execute p dx dy dz =
        ⟨[(("WARNING" : String), "Invalid directory path.")], .CANCELLED,
          []⟩)
    ∧ (p.filename ≠ "" →
      Export_model_execute p dx dy dz =
        ⟨[], .FINISHED,
         finalize_mesh ((p.max_size : ℚ) / 100) dx dy dz
           ++ export_to_stl (p.filename ++ "\\export.stl")⟩) :=
  ⟨export_empty dx dy dz, export_nonempty dx dy dz⟩

/-- Witness for C3 on an empty and a non-empty filename. -/
theorem C3_export_path_check_witness :
    Export_model_execute ⟨"", 10⟩ 1 1 1 =
      ⟨[(("WARNING" : String), "Invalid directory path.")], .CANCELLED, []⟩
    ∧ Export_model_execute ⟨"C:", 10⟩ 1 1 1 =
      ⟨[], .FINISHED,
       finalize_mesh (((10 : ℤ) : ℚ) / 100) 1 1 1
         ++ export_to_stl ("C:" ++ "\\export.stl")⟩ :=
  ⟨(C3_export_path_check ⟨"", 10⟩ 1 1 1).1 rfl,
   (C3_export_path_check ⟨"C:", 10⟩ 1 1 1).2 (by decide)⟩

/-- C7: every successful export writes a binary STL (`ascii = false`,
with mesh modifiers, global scale 1) to the path `filename ++
"\\export.stl"`, as the final host operation. -/
theorem C7_binary_stl_export (p : ExportProps) (dx dy dz : ℚ)
    (h : p.filename ≠ "") :
    (Export_model_execute p dx dy dz).result = .FINISHED
    ∧ ∃ pre, (Export_model_execute p dx dy dz).trace =
        pre ++ [.exportSTL (p.filename ++ "\\export.stl") false true 1] := by
  rw [export_nonempty dx dy dz h]
  refine ⟨rfl,
    finalize_mesh ((p.max_size : ℚ) / 100) dx dy dz ++ [.selectAllObjects],
    ?_⟩
  simp [export_to_stl]

/-- Witness for C7 at filename "C:". -/
theorem C7_binary_stl_export_witness :
    ("C:" : String) ≠ ""
    ∧ ((Export_model_execute ⟨"C:", 10⟩ 1 1 1).result = .FINISHED
       ∧ ∃ pre, (Export_model_execute ⟨"C:", 10⟩ 1 1 1).trace =
           pre ++ [.exportSTL ("C:" ++ "\\export.stl") false true 1]) :=
  ⟨by decide, C7_binary_stl_export ⟨"C:", 10⟩ 1 1 1 (by decide)⟩

/-- C1: in every full run (a `Model_mesh.execute` that finishes followed by
an `Export_model.execute` that finishes), the pipeline-relevant host
operations occur in exactly this order: for each mesh built, text objects
are converted to mesh (phase 1, twice), then the boolean INTERSECT
modifier is applied (2), then the boolean UNION modifier with a platform
cube (3, twice when the top platform is requested); after all meshes, the
DECIMATE modifier is applied (4), then the uniform scale is set (5), then
the STL export is performed (6).  In particular decimation precedes
export. -/
theorem C1_full_run_pipeline_order (p : ModelMeshProps)
    (fontRes : FontLoadResult) (dims : Nat → ℚ × ℚ) (o : ExecOutcome)
    (ep : ExportProps) (dx dy dz : ℚ)
    (h1 : Model_mesh_execute p fontRes dims = .ok o)
    (h2 : o.result = .FINISHED)
    (h3 : (Export_model_execute ep dx dy dz).result = .FINISHED) :
    ∃ k, phases (o.trace ++ (Export_model_execute ep dx dy dz).trace)
      = (List.replicate k (meshPhases p.with_top_platform)).flatten
        ++ [4, 5, 6] := by
  obtain ⟨k, hk⟩ := phases_main_ok (execute_finished_main h1 h2)
  refine ⟨k, ?_⟩
  rw [phases_append, hk, export_finished_trace h3, phases_append,
    phases_finalize_mesh, phases_export_to_stl]
  simp

/-- Witness for C1: a concrete finished model run followed by a concrete
finished export. -/
theorem C1_full_run_pipeline_order_witness :
    Model_mesh_execute demoModelProps (.loaded "f") dims0 = .ok demoOutcome
    ∧ demoOutcome.result = .FINISHED
    ∧ (Export_model_execute demoExportProps 1 1 1).result = .FINISHED
    ∧ ∃ k, phases (demoOutcome.trace
        ++ (Export_model_execute demoExportProps 1 1 1).trace)
      = (List.replicate k (meshPhases demoModelProps.with_top_platform)).flatten
        ++ [4, 5, 6] :=
  have hm : main (py_upper demoModelProps.fst) (py_upper demoModelProps.snd)
      demoModelProps.by_letters demoModelProps.with_top_platform
      (demoModelProps.platform_height / 10) (fontStep (.loaded "f")).2 dims0
      = .ok demoOutcome.trace := main_false _ _ _ _ _ _
  have h1 : Model_mesh_execute demoModelProps (.loaded "f") dims0
      = .ok demoOutcome := execute_pass rfl hm
  ⟨h1, rfl, rfl,
   C1_full_run_pipeline_order demoModelProps (.loaded "f") dims0 demoOutcome
     demoExportProps 1 1 1 h1 rfl rfl⟩

/-- C2: an invocation of `Model_mesh.execute` with `by_letters` true and
words of different lengths reports the warning and returns CANCELLED with
no host operation performed (`main` is not called); every other invocation
passes the word-length check and reaches `main` (on the uppercased words),
returning FINISHED with the `main` trace. -/
theorem C2_word_length_check (p : ModelMeshProps)
    (fontRes : FontLoadResult) (dims : Nat → ℚ × ℚ) :
    (p.by_letters = true → p.fst.length ≠ p.snd.length →
      Model_mesh_execute p fontRes dims =
        .ok ⟨[(("WARNING" : String), lenWarnMsg)], .CANCELLED, []⟩)
    ∧ (¬(p.by_letters = true ∧ p.fst.length ≠ p.snd.length) →
      ∃ tr, main (py_upper p.fst) (py_upper p.snd) p.by_letters
          p.with_top_platform (p.platform_height / 10)
          (fontStep fontRes).2 dims = .ok tr
        ∧ Model_mesh_execute p fontRes dims =
            .ok ⟨(fontStep fontRes).1, .FINISHED, tr⟩) := by
  refine ⟨fun hb hl => execute_length_check fontRes dims hb hl, fun hpass => ?_⟩
  have hc := not_check_to_false hpass
  obtain ⟨tr, htr⟩ := main_ok (py_upper p.fst) (py_upper p.snd) p.by_letters
    p.with_top_platform (p.platform_height / 10) (fontStep fontRes).2 dims
    (check_false_lengths hc)
  exact ⟨tr, htr, execute_pass hc htr⟩

/-- Witness for C2: a cancelling per-letter invocation with words of
lengths 1 and 2, and a passing whole-word invocation. -/
theorem C2_word_length_check_witness :
    Model_mesh_execute ⟨"a", "bc", "f", true, 1, false⟩ (.loaded "f") dims0 =
      .ok ⟨[(("WARNING" : String), lenWarnMsg)], .CANCELLED, []⟩
    ∧ ∃ tr, main (py_upper demoModelProps.fst) (py_upper demoModelProps.snd)
        demoModelProps.by_letters demoModelProps.with_top_platform
        (demoModelProps.platform_height / 10)
        (fontStep (.loaded "f")).2 dims0 = .ok tr
      ∧ Model_mesh_execute demoModelProps (.loaded "f") dims0 =
          .ok ⟨(fontStep (.loaded "f")).1, .FINISHED, tr⟩ :=
  ⟨(C2_word_length_check ⟨"a", "bc", "f", true, 1, false⟩ (.loaded "f")
      dims0).1 rfl (by decide),
   (C2_word_length_check demoModelProps (.loaded "f") dims0).2 (by decide)⟩

/-- C4: with `by_letters` true and words of equal length `n`, `main`
performs exactly one `single_mesh` per index `i < n`, on the letter pair
`(fst[i], snd[i])`; with `by_letters` false it performs exactly one
`single_mesh` on the two whole words. -/
theorem C4_single_mesh_invocations (fw sw : String) (wtp : Bool) (ph : ℚ)
    (font : Option String) (dims : Nat → ℚ × ℚ) :
    (fw.length = sw.length →
      (main fw sw true wtp ph font dims =
        .ok (clear_workspace
          ++ ((List.range fw.length).map (fun i =>
              single_mesh (String.singleton (char_at fw i))
                (String.singleton (char_at sw i)) wtp ph font
                (dims i).1 (dims i).2 (letter_centre fw.length i))).flatten
          ++ join_and_centre)
       ∧ ∀ i, i < fw.length →
           py_charAt fw i = .ok (String.singleton (char_at fw i))
           ∧ py_charAt sw i = .ok (String.singleton (char_at sw i))))
    ∧ main fw sw false wtp ph font dims =
        .ok (clear_workspace
          ++ single_mesh fw sw wtp ph font (dims 0).1 (dims 0).2 0
          ++ join_and_centre) := by
  refine ⟨fun h => ⟨main_true_ok fw sw wtp ph font dims h, fun i hi =>
    ⟨char_at_py_charAt hi, char_at_py_charAt (h ▸ hi)⟩⟩,
    main_false fw sw wtp ph font dims⟩

/-- Witness for C4 on the equal-length words "ab" and "cd". -/
theorem C4_single_mesh_invocations_witness :
    ("ab" : String).length = ("cd" : String).length
    ∧ main "ab" "cd" true false 1 none dims0 =
        .ok (clear_workspace
          ++ ((List.range ("ab" : String).length).map (fun i =>
              single_mesh (String.singleton (char_at "ab" i))
                (String.singleton (char_at "cd" i)) false 1 none
                (dims0 i).1 (dims0 i).2
                (letter_centre ("ab" : String).length i))).flatten
          ++ join_and_centre) :=
  ⟨rfl, ((C4_single_mesh_invocations "ab" "cd" false 1 none dims0).1 rfl).1⟩

/-- C9: under the precondition that the two words have equal length, every
string index access performed by `mesh_by_letters` is in bounds (no
iteration hits the `IndexError` branch), and `mesh_by_letters` succeeds. -/
theorem C9_letter_indexing_in_bounds (fw sw : String) (wp : Bool) (ph : ℚ)
    (font : Option String) (dims : Nat → ℚ × ℚ)
    (h : fw.length = sw.length) :
    (∀ i, i < fw.length →
      py_charAt fw i ≠ .error .indexError
      ∧ py_charAt sw i ≠ .error .indexError)
    ∧ ∃ t, mesh_by_letters fw sw wp ph font dims = .ok t := by
  refine ⟨fun i hi => ⟨?_, ?_⟩,
    ⟨_, mesh_by_letters_ok fw sw wp ph font dims h⟩⟩
  · rw [char_at_py_charAt hi]
    simp
  · rw [char_at_py_charAt (h ▸ hi)]
    simp

/-- Witness for C9 on the equal-length words "ab" and "cd". -/
theorem C9_letter_indexing_in_bounds_witness :
    ("ab" : String).length = ("cd" : String).length
    ∧ ((∀ i, i < ("ab" : String).length →
        py_charAt "ab" i ≠ .error .indexError
        ∧ py_charAt "cd" i ≠ .error .indexError)
      ∧ ∃ t, mesh_by_letters "ab" "cd" false 1 none dims0 = .ok t) :=
  ⟨rfl, C9_letter_indexing_in_bounds "ab" "cd" false 1 none dims0 rfl⟩

/-- C8: when an invocation of `Model_mesh.execute` reaches `main`, the
words passed to `main` are the uppercased `fst` and `snd`; consequently
two invocations whose words agree up to letter case (and agree on the
other properties) produce identical outcomes. -/
theorem C8_uppercase_words (p q : ModelMeshProps)
    (fontRes : FontLoadResult) (dims : Nat → ℚ × ℚ)
    (hfst : py_upper p.fst = py_upper q.fst)
    (hsnd : py_upper p.snd = py_upper q.snd)
    (hbl : p.by_letters = q.by_letters)
    (hph : p.platform_height = q.platform_height)
    (hwtp : p.with_top_platform = q.with_top_platform) :
    (∀ tr, (p.by_letters && !(p.fst.length == p.snd.length)) = false →
      main (py_upper p.fst) (py_upper p.snd) p.by_letters
        p.with_top_platform (p.platform_height / 10)
        (fontStep fontRes).2 dims = .ok tr →
      Model_mesh_execute p fontRes dims =
        .ok ⟨(fontStep fontRes).1, .FINISHED, tr⟩)
    ∧ Model_mesh_execute p fontRes dims
        = Model_mesh_execute q fontRes dims := by
  refine ⟨fun tr hc htr => execute_pass hc htr, ?_⟩
  have hlf : p.fst.length = q.fst.length := by
    rw [← py_upper_length p.fst, ← py_upper_length q.fst, hfst]
  have hls : p.snd.length = q.snd.length := by
    rw [← py_upper_length p.snd, ← py_upper_length q.snd, hsnd]
  unfold Model_mesh_execute
  rw [hfst, hsnd, hbl, hph, hwtp, hlf, hls]

/-- Witness for C8: two whole-word invocations differing only in letter
case have the same outcome. -/
theorem C8_uppercase_words_witness :
    py_upper "ab" = py_upper "aB"
    ∧ Model_mesh_execute demoModelProps (.loaded "f") dims0
        = Model_mesh_execute ⟨"aB", "Cd", "font.ttf", false, 1, false⟩
            (.loaded "f") dims0 :=
  ⟨by decide,
   (C8_uppercase_words demoModelProps ⟨"aB", "Cd", "font.ttf", false, 1, false⟩
     (.loaded "f") dims0 (by decide) (by decide) rfl rfl rfl).2⟩

/-- C5 counterexample: with the top-platform option off (`with_platform =
false`), `single_mesh` still joins a platform to the intersection mesh —
the boolean UNION application with the platform cube is in its trace — so
"when the option is not set no platform is added" fails on the code. -/
theorem C5_counterexample :
    HostOp.applyModifier "Union of intersect mesh and platform"
      ∈ single_mesh "A" "B" false 1 none 1 1 0
    ∧ (single_mesh "A" "B" false 1 none 1 1 0).countP isUnionApply = 1 := by
  constructor
  · simp [single_mesh, create_text_object, create_intersection_object,
      add_platform]
  · simp [single_mesh, create_text_object, create_intersection_object,
      add_platform, List.countP_append, List.countP_cons, isUnionApply]

/-- C5 amended: a bottom platform is always joined to the intersection
mesh; the top platform is joined exactly when the with-platform option is
set.  Each model creation performs two platform-cube creations and two
UNION applications when the option is set, and one of each otherwise. -/
theorem C5_platforms_amended (fst snd : String) (wp : Bool) (ph : ℚ)
    (font : Option String) (w d c : ℚ) :
    (single_mesh fst snd wp ph font w d c).countP isUnionApply
      = (if wp then 2 else 1)
    ∧ (single_mesh fst snd wp ph font w d c).countP isCubeAdd
      = (if wp then 2 else 1) := by
  cases wp <;> cases font <;>
    simp [single_mesh, create_text_object, create_intersection_object,
      add_platform, List.countP_append, List.countP_cons, isUnionApply,
      isCubeAdd]

/-- C6 counterexample: a `RuntimeError` raised by the font load during
`Model_mesh.execute` is caught and recovered from — the run still reaches
`main` and returns FINISHED, reporting the fallback warning — so "every
failure beyond the two user-input checks propagates uncaught" fails on the
code. -/
theorem C6_counterexample :
    Model_mesh_execute demoModelProps .raisedRuntimeError dims0
      = .ok demoFallbackOutcome
    ∧ demoFallbackOutcome.result = .FINISHED
    ∧ demoFallbackOutcome.reports
        = [(("WARNING" : String), fontWarnMsg)] := by
  refine ⟨?_, rfl, rfl⟩
  exact execute_pass rfl (main_false _ _ _ _ _ _)

/-- C6 amended: the only failure-recovery beyond the two user-input checks
is the font-load fallback: when `bpy.data.fonts.load` raises
`RuntimeError`, `Model_mesh.execute` catches it, reports a warning, and
proceeds with the default font (`None`), finishing normally; the
embedding contains no other exception handler. -/
theorem C6_font_fallback_amended (p : ModelMeshProps)
    (dims : Nat → ℚ × ℚ)
    (hc : (p.by_letters && !(p.fst.length == p.snd.length)) = false) :
    ∃ tr, main (py_upper p.fst) (py_upper p.snd) p.by_letters
        p.with_top_platform (p.platform_height / 10) none dims = .ok tr
      ∧ Model_mesh_execute p .raisedRuntimeError dims =
          .ok ⟨[(("WARNING" : String), fontWarnMsg)], .FINISHED, tr⟩ := by
  obtain ⟨tr, htr⟩ := main_ok (py_upper p.fst) (py_upper p.snd) p.by_letters
    p.with_top_platform (p.platform_height / 10) none dims
    (check_false_lengths hc)
  exact ⟨tr, htr, execute_pass hc htr⟩

/-- Witness for the amended C6 at the demo properties. -/
theorem C6_font_fallback_amended_witness :
    (demoModelProps.by_letters
      && !(demoModelProps.fst.length == demoModelProps.snd.length)) = false
    ∧ ∃ tr, main (py_upper demoModelProps.fst) (py_upper demoModelProps.snd)
        demoModelProps.by_letters demoModelProps.with_top_platform
        (demoModelProps.platform_height / 10) none dims0 = .ok tr
      ∧ Model_mesh_execute demoModelProps .raisedRuntimeError dims0 =
          .ok ⟨[(("WARNING" : String), fontWarnMsg)], .FINISHED, tr⟩ :=
  ⟨rfl, C6_font_fallback_amended demoModelProps dims0 rfl⟩

end TextIntersection
